import Mathlib

/-!
Verification of the NL-to-SQL application (`nl_to_sql/nl_to_sql.py`,
`config.py`).

The development shallowly embeds the program: pure string manipulation is
translated directly; the mutable session state (`State`) and the global
connection dictionary become explicit state records threaded through the
functions; external effects (the DuckDB engine, the filesystem, the HTTP
call to the Gemini endpoint) are oracles collected in a `World` record;
Python `json.loads` is embedded as an executable recursive-descent parser
over the JSON value grammar.
-/

/-- The left and right curly brace characters (codepoints 123 and 125),
used by the extraction heuristic `content.find` / `content.rfind`. -/
def lbrace : Char := Char.ofNat 123

def rbrace : Char := Char.ofNat 125

/-- JSON values as produced by `json.loads`.  Numbers keep their source
lexeme (the program never inspects numeric values). -/
inductive Json where
  | null
  | bool (b : Bool)
  | num (lexeme : String)
  | str (s : String)
  | arr (elems : List Json)
  | obj (fields : List (String × Json))

/-- `dict.get(key)`: `none` when the value is not an object or the key is
absent.  Python keeps the last occurrence of a duplicated key, hence the
search from the end. -/
def Json.get (j : Json) (key : String) : Option Json :=
  match j with
  | .obj fields => (fields.reverse.find? (fun p => p.1 == key)).map (·.2)
  | _ => none

/-- `value[i]` on a decoded JSON list; `none` models the raised
`TypeError`/`IndexError`. -/
def jsonIndex (j : Json) (i : Nat) : Option Json :=
  match j with
  | Json.arr xs => xs.get? i
  | _ => none

/-- JSON insignificant whitespace. -/
def isJsonWs (c : Char) : Bool :=
  c == ' ' || c == '\t' || c == '\n' || c == '\r'

def skipWs : List Char → List Char
  | [] => []
  | c :: cs => if isJsonWs c then skipWs cs else c :: cs

def hexVal (c : Char) : Option Nat :=
  if '0' ≤ c ∧ c ≤ '9' then some (c.toNat - '0'.toNat)
  else if 'a' ≤ c ∧ c ≤ 'f' then some (c.toNat - 'a'.toNat + 10)
  else if 'A' ≤ c ∧ c ≤ 'F' then some (c.toNat - 'A'.toNat + 10)
  else none

/-- Body of a JSON string literal (opening quote already consumed),
including the escape sequences accepted by Python's strict decoder. -/
def parseStrBody : Nat → List Char → List Char → Option (String × List Char)
  | 0, _, _ => none
  | _ + 1, _, [] => none
  | fuel + 1, acc, c :: cs =>
    if c == '"' then some (String.mk acc.reverse, cs)
    else if c == '\\' then
      match cs with
      | [] => none
      | e :: cs2 =>
        if e == '"' then parseStrBody fuel ('"' :: acc) cs2
        else if e == '\\' then parseStrBody fuel ('\\' :: acc) cs2
        else if e == '/' then parseStrBody fuel ('/' :: acc) cs2
        else if e == 'b' then parseStrBody fuel (Char.ofNat 8 :: acc) cs2
        else if e == 'f' then parseStrBody fuel (Char.ofNat 12 :: acc) cs2
        else if e == 'n' then parseStrBody fuel ('\n' :: acc) cs2
        else if e == 'r' then parseStrBody fuel ('\r' :: acc) cs2
        else if e == 't' then parseStrBody fuel ('\t' :: acc) cs2
        else if e == 'u' then
          match cs2 with
          | a :: b :: c2 :: d :: cs3 =>
            match hexVal a, hexVal b, hexVal c2, hexVal d with
            | some ha, some hb, some hc, some hd =>
              parseStrBody fuel
                (Char.ofNat (((ha * 16 + hb) * 16 + hc) * 16 + hd) :: acc) cs3
            | _, _, _, _ => none
          | _ => none
        else none
    else if c.toNat < 32 then none
    else parseStrBody fuel (c :: acc) cs

/-- Longest digit run at the head of the input. -/
def spanDigits : List Char → List Char × List Char
  | [] => ([], [])
  | c :: cs =>
    if c.isDigit then
      let (d, r) := spanDigits cs
      (c :: d, r)
    else ([], c :: cs)

/-- JSON integer part: a nonempty digit run with no leading zero. -/
def parseIntDigits (s : List Char) : Option (List Char × List Char) :=
  let (d, r) := spanDigits s
  if d.isEmpty then none
  else if 1 < d.length ∧ d.head? = some '0' then none
  else some (d, r)

/-- Optional JSON fraction part. -/
def parseFrac (s : List Char) : Option (List Char × List Char) :=
  match s with
  | '.' :: t =>
    let (d, r) := spanDigits t
    if d.isEmpty then none else some ('.' :: d, r)
  | _ => some ([], s)

/-- Optional JSON exponent part. -/
def parseExp (s : List Char) : Option (List Char × List Char) :=
  match s with
  | e :: t =>
    if e == 'e' || e == 'E' then
      match t with
      | s2 :: t2 =>
        if s2 == '+' || s2 == '-' then
          let (d, r) := spanDigits t2
          if d.isEmpty then none else some (e :: s2 :: d, r)
        else
          let (d, r) := spanDigits t
          if d.isEmpty then none else some (e :: d, r)
      | [] => none
    else some ([], e :: t)
  | [] => some ([], [])

/-- A full JSON number lexeme. -/
def parseNumLexeme (s : List Char) : Option (List Char × List Char) :=
  let (neg, s1) :=
    match s with
    | c :: t => if c == '-' then ([c], t) else ([], s)
    | [] => ([], s)
  match parseIntDigits s1 with
  | none => none
  | some (ip, r1) =>
    match parseFrac r1 with
    | none => none
    | some (fp, r2) =>
      match parseExp r2 with
      | none => none
      | some (ep, r3) => some (neg ++ ip ++ fp ++ ep, r3)

mutual

/-- One JSON value (leading whitespace allowed); returns the value and the
unconsumed remainder. -/
def parseValue : Nat → List Char → Option (Json × List Char)
  | 0, _ => none
  | f + 1, s =>
    match skipWs s with
    | [] => none
    | c :: cs =>
      if c == '"' then
        match parseStrBody (cs.length + 1) [] cs with
        | some (t, r) => some (Json.str t, r)
        | none => none
      else if c == lbrace then
        match skipWs cs with
        | c2 :: cs2 =>
          if c2 == rbrace then some (Json.obj [], cs2)
          else parseMembers f [] (c2 :: cs2)
        | [] => none
      else if c == '[' then
        match skipWs cs with
        | c2 :: cs2 =>
          if c2 == ']' then some (Json.arr [], cs2)
          else parseElems f [] (c2 :: cs2)
        | [] => none
      else if c == 't' then
        match cs with
        | 'r' :: 'u' :: 'e' :: r => some (Json.bool true, r)
        | _ => none
      else if c == 'f' then
        match cs with
        | 'a' :: 'l' :: 's' :: 'e' :: r => some (Json.bool false, r)
        | _ => none
      else if c == 'n' then
        match cs with
        | 'u' :: 'l' :: 'l' :: r => some (Json.null, r)
        | _ => none
      else
        match parseNumLexeme (c :: cs) with
        | some (lex, r) => some (Json.num (String.mk lex), r)
        | none => none

/-- Members of a JSON object after the opening brace (first member
expected). -/
def parseMembers : Nat → List (String × Json) → List Char →
    Option (Json × List Char)
  | 0, _, _ => none
  | f + 1, acc, s =>
    match skipWs s with
    | c :: cs =>
      if c == '"' then
        match parseStrBody (cs.length + 1) [] cs with
        | some (k, r1) =>
          match skipWs r1 with
          | ':' :: r2 =>
            match parseValue f r2 with
            | some (v, r3) =>
              match skipWs r3 with
              | ',' :: r4 => parseMembers f ((k, v) :: acc) r4
              | c3 :: r4 =>
                if c3 == rbrace then some (Json.obj ((k, v) :: acc).reverse, r4)
                else none
              | [] => none
            | none => none
          | _ => none
        | none => none
      else none
    | [] => none

/-- Elements of a JSON array after the opening bracket (first element
expected). -/
def parseElems : Nat → List Json → List Char → Option (Json × List Char)
  | 0, _, _ => none
  | f + 1, acc, s =>
    match parseValue f s with
    | some (v, r1) =>
      match skipWs r1 with
      | ',' :: r2 => parseElems f (v :: acc) r2
      | ']' :: r2 => some (Json.arr (v :: acc).reverse, r2)
      | _ => none
    | none => none

end

/-- `json.loads`: the whole input must be a single JSON value surrounded
only by whitespace; `none` models a raised `JSONDecodeError`. -/
def jsonLoads (s : String) : Option Json :=
  let cs := s.toList
  match parseValue (cs.length + 1) cs with
  | some (v, r) => if skipWs r = [] then some v else none
  | none => none

/-- `str.find(c)`: index of the first occurrence, `none` for Python's -1. -/
def pyFind (c : Char) : List Char → Option Nat
  | [] => none
  | a :: as => if a == c then some 0 else (pyFind c as).map (· + 1)

/-- `str.rfind(c)`: index of the last occurrence, `none` for Python's -1. -/
def pyRfind (c : Char) (s : List Char) : Option Nat :=
  match pyFind c s.reverse with
  | some i => some (s.length - 1 - i)
  | none => none

/-- Lines 215-218: the substring of `content` from the first `'{'` to the
last `'}'` (inclusive), `none` when either brace is absent. -/
def extractJsonSlice (content : String) : Option String :=
  let cs := content.toList
  match pyFind lbrace cs, pyRfind rbrace cs with
  | some i, some j => some (String.mk ((cs.take (j + 1)).drop i))
  | _, _ => none

/-- Modeled message of the `json.JSONDecodeError` raised by `json.loads`. -/
def jsonDecodeErrorMsg : String := "Expecting value"

/-- Lines 214-221: locate the JSON slice and parse it; both failure modes
raise a `JSONDecodeError`, carried here in `Except.error`. -/
def extract_result_json (content : String) : Except String Json :=
  match extractJsonSlice content with
  | some jsonStr =>
    match jsonLoads jsonStr with
    | some v => Except.ok v
    | none => Except.error jsonDecodeErrorMsg
  | none => Except.error "No JSON object found in the response"

/-- The dispatch decision taken on the parsed object (lines 223-237):
which branch runs, and the raw field values handed to it. -/
inductive ModelAction where
  | sql (query : Option Json)
  | create_table (file_path table_name : Option Json)
  | unknown

/-- Lines 223-236: `result_json.get("action")` compared against `"sql"`
and `"create_table"`; the branch payloads are bare `.get` lookups with no
validation. -/
def dispatch_action (result_json : Json) : ModelAction :=
  match result_json.get "action" with
  | some (Json.str a) =>
    if a = "sql" then ModelAction.sql (result_json.get "query")
    else if a = "create_table" then
      ModelAction.create_table (result_json.get "file_path")
        (result_json.get "table_name")
    else ModelAction.unknown
  | _ => ModelAction.unknown

mutual

/-- Python `repr` of a decoded JSON value (scalars exact; containers in
Python's list/dict notation).  Only used inside chat-message f-strings. -/
def pyRepr : Json → String
  | Json.null => "None"
  | Json.bool true => "True"
  | Json.bool false => "False"
  | Json.num lex => lex
  | Json.str s => "'" ++ s ++ "'"
  | Json.arr xs => "[" ++ pyReprList xs ++ "]"
  | Json.obj fs => "\x7b" ++ pyReprFields fs ++ "\x7d"

def pyReprList : List Json → String
  | [] => ""
  | [x] => pyRepr x
  | x :: xs => pyRepr x ++ ", " ++ pyReprList xs

def pyReprFields : List (String × Json) → String
  | [] => ""
  | [(k, v)] => "'" ++ k ++ "': " ++ pyRepr v
  | (k, v) :: fs => "'" ++ k ++ "': " ++ pyRepr v ++ ", " ++ pyReprFields fs

end

/-- Python `str` of a decoded JSON value as interpolated by an f-string. -/
def pyStr : Json → String
  | Json.str s => s
  | v => pyRepr v

/-- Interpolation of a `dict.get` result (`None` when absent). -/
def pyStrOpt : Option Json → String
  | none => "None"
  | some v => pyStr v

/-- One element of `State.chat_history`. -/
structure ChatEntry where
  role : String
  text : String
deriving DecidableEq, Repr

/-- The fields of `rx.State` subclass `State`. -/
structure AppState where
  chat_history : List ChatEntry
  db_name : String
  is_connected : Bool
  processing : Bool
  api_key : String
  api_key_set : Bool
deriving DecidableEq, Repr

/-- The module-level `_connections` dictionary: identifier to DuckDB
handle (handles abstracted as numbers), in insertion order. -/
abbrev Registry := List (String × Nat)

/-- The mutable state touched by a turn: the session state plus the
process-wide connection dictionary. -/
structure Sys where
  app : AppState
  conns : Registry
deriving DecidableEq, Repr

/-- An HTTP response from the Gemini endpoint: its status code and raw
body text (`response.json()` is modeled by `jsonLoads` on the body). -/
structure HttpResponse where
  status_code : Nat
  text : String
deriving DecidableEq, Repr

/-- Outcome of the `httpx` POST: a response, or a raised exception. -/
inductive HttpResult where
  | response (r : HttpResponse)
  | exn (msg : String)

/-- Oracles for the external world during one turn: `duckdb.connect`,
the HTTP call, and the DuckDB engine's answers at each call site.
`Except.error e` models a raised exception with message `e`. -/
structure World where
  connect : String → Option Nat
  http : HttpResult
  schemaTables : Except String (List String)
  tableInfo : String → Except String String
  listTables : Except String (List String)
  execResult : Except String (Option String)
  fileExists : String → Bool
  createResult : Except String Unit

/-- Lookup in the `_connections` dictionary. -/
def lookupConn (conns : Registry) (db_name : String) : Option Nat :=
  (conns.find? (fun p => p.1 == db_name)).map (·.2)

/-- `get_db_conn` (lines 24-35): empty name gives `None`; a cached handle
is returned as is; otherwise `duckdb.connect` is attempted, caching the
handle on success and caching nothing on failure. -/
def get_db_conn (conns : Registry) (connect : String → Option Nat)
    (db_name : String) : Registry × Option Nat :=
  if db_name = "" then (conns, none)
  else
    match lookupConn conns db_name with
    | some h => (conns, some h)
    | none =>
      match connect db_name with
      | some h => (conns ++ [(db_name, h)], some h)
      | none => (conns, none)

/-- `self.chat_history.append({"role": role, "text": text})`. -/
def appendChat (sys : Sys) (role text : String) : Sys :=
  { sys with app :=
      { sys.app with chat_history := sys.app.chat_history ++ [⟨role, text⟩] } }

/-- Append with role `"system"`. -/
def appendSystem (sys : Sys) (text : String) : Sys :=
  appendChat sys "system" text

/-- The `for table_tuple in tables` loop of `get_db_schema` (lines
98-102), with the per-table `PRAGMA table_info` answer supplied by the
oracle; an error aborts the whole `try` block. -/
def buildSchemaText : List String → (String → Except String String) →
    String → Except String String
  | [], _, acc => Except.ok acc
  | t :: ts, info, acc =>
    match info t with
    | Except.ok cols =>
        buildSchemaText ts info
          (acc ++ "### Table: " ++ t ++ "\n" ++ cols ++ "\n\n")
    | Except.error e => Except.error e

/-- `get_db_schema` (lines 89-105). -/
def get_db_schema (conns : Registry) (w : World) (db_name : String) :
    Registry × String :=
  match get_db_conn conns w.connect db_name with
  | (conns1, none) => (conns1, "No database connection.")
  | (conns1, some _) =>
    match w.schemaTables with
    | Except.error e => (conns1, "Error getting schema: " ++ e)
    | Except.ok tables =>
      match buildSchemaText tables w.tableInfo "" with
      | Except.error e => (conns1, "Error getting schema: " ++ e)
      | Except.ok schema =>
          (conns1, if schema = "" then "No tables in the database." else schema)

/-- `show_all_tables` (lines 107-123). -/
def show_all_tables (sys : Sys) (w : World) : Sys :=
  match get_db_conn sys.conns w.connect sys.app.db_name with
  | (conns1, none) =>
      appendSystem { sys with conns := conns1 } "Database connection lost."
  | (conns1, some _) =>
    let sys1 : Sys := { sys with conns := conns1 }
    match w.listTables with
    | Except.error e =>
        appendSystem sys1 ("Error getting table info: " ++ e)
    | Except.ok [] =>
        appendSystem sys1 "No tables found in the database."
    | Except.ok (t :: ts) =>
        appendSystem sys1 ("Tables in the database:\n" ++
          String.intercalate "\n" ((t :: ts).map (fun tb => "- " ++ tb)))

/-- `execute_sql` (lines 125-141); the engine's verdict on the query is
the `execResult` oracle (`ok none` for an empty frame). -/
def execute_sql (sys : Sys) (w : World) (_sql_query : Option Json) : Sys :=
  match get_db_conn sys.conns w.connect sys.app.db_name with
  | (conns1, none) =>
      appendSystem { sys with conns := conns1 } "Database connection lost."
  | (conns1, some _) =>
    let sys1 : Sys := { sys with conns := conns1 }
    match w.execResult with
    | Except.error e => appendSystem sys1 ("Error executing SQL: " ++ e)
    | Except.ok none =>
        appendSystem sys1 "Query executed successfully, but returned no results."
    | Except.ok (some md) =>
        appendSystem sys1 ("Query Result:\n```\n" ++ md ++ "\n```")

/-- Modeled `config.DATA_DIR` (a fixed directory path). -/
def DATA_DIR : String := "data"

/-- `create_table_from_csv` (lines 143-158).  `os.path.join` on a
non-string `file_path` raises a `TypeError` before any message is
appended; that raise escapes the function (`Except.error`), carrying the
state as mutated so far. -/
def create_table_from_csv (sys : Sys) (w : World)
    (file_path table_name : Option Json) : Except (String × Sys) Sys :=
  match get_db_conn sys.conns w.connect sys.app.db_name with
  | (conns1, conn) =>
    let sys1 : Sys := { sys with conns := conns1 }
    match file_path with
    | some (Json.str fp) =>
      let full_path := DATA_DIR ++ "/" ++ fp
      if conn = none ∨ w.fileExists full_path = false then
        Except.ok (appendSystem sys1
          ("Error: File not found at '" ++ full_path ++ "' or no DB connection."))
      else
        match w.createResult with
        | Except.error e =>
            Except.ok (appendSystem sys1 ("Error creating table from CSV: " ++ e))
        | Except.ok _ =>
            Except.ok (show_all_tables
              (appendSystem sys1 ("Successfully created table '" ++
                pyStrOpt table_name ++ "' from '" ++ fp ++ "'.")) w)
    | _ => Except.error ("join argument must be str, not NoneType", sys1)

/-- `response_json["candidates"][0]["content"]["parts"][0]["text"]`
(line 212); `none` models the raised `KeyError`/`TypeError`. -/
def candidateText (body : Json) : Option String :=
  match body.get "candidates" >>= (jsonIndex · 0) >>= (Json.get · "content")
      >>= (Json.get · "parts") >>= (jsonIndex · 0) >>= (Json.get · "text") with
  | some (Json.str t) => some t
  | _ => none

/-- Modeled message of the exception raised while indexing into the
response JSON. -/
def candidateErrorMsg : String := "candidates"

/-- Lines 214-237 plus the `except` handler: extract the action object
from the model text, dispatch it, and on any raise append the single
`"An error occurred: ..."` message. -/
def handleContent (sys : Sys) (w : World) (content : String) : Sys :=
  match extract_result_json content with
  | Except.error e => appendSystem sys ("An error occurred: " ++ e)
  | Except.ok result_json =>
    match dispatch_action result_json with
    | ModelAction.sql q =>
        execute_sql
          (appendSystem sys ("Generated SQL:\n```sql\n" ++ pyStrOpt q ++ "\n```"))
          w q
    | ModelAction.create_table fp tn =>
      match create_table_from_csv
          (appendSystem sys ("Executing command: Create table '" ++
            pyStrOpt tn ++ "' from '" ++ pyStrOpt fp ++ "'.")) w fp tn with
      | Except.ok s => s
      | Except.error (e, s) => appendSystem s ("An error occurred: " ++ e)
    | ModelAction.unknown =>
        appendSystem sys "The model returned an unknown action."

/-- The `try` block of `process_query_with_gemini` (lines 197-240) with
its `except` handler: the HTTP call, the status check, response JSON
decoding, candidate-text extraction, then `handleContent`. -/
def turnBody (sys : Sys) (w : World) : Sys :=
  match w.http with
  | HttpResult.exn e => appendSystem sys ("An error occurred: " ++ e)
  | HttpResult.response r =>
    if r.status_code ≠ 200 then
      appendSystem sys ("API Error: " ++ r.text)
    else
      match jsonLoads r.text with
      | none => appendSystem sys ("An error occurred: " ++ jsonDecodeErrorMsg)
      | some body =>
        match candidateText body with
        | none => appendSystem sys ("An error occurred: " ++ candidateErrorMsg)
        | some content => handleContent sys w content

/-- `self.processing = b`. -/
def setProcessing (sys : Sys) (b : Bool) : Sys :=
  { sys with app := { sys.app with processing := b } }

/-- Lines 162-165: `processing = True`, then `get_db_schema` (whose only
state effect is on the connection dictionary; the schema text itself only
feeds the prompt, hence the HTTP oracle). -/
def schemaStage (sys : Sys) (w : World) : Sys :=
  let sys1 := setProcessing sys true
  { sys1 with conns := (get_db_schema sys1.conns w sys1.app.db_name).1 }

/-- `process_query_with_gemini` (lines 160-243): set `processing`, build
the prompt from the schema, run the guarded body, and clear `processing`
in the `finally` block. -/
def process_query_with_gemini (sys : Sys) (w : World) : Sys :=
  setProcessing (turnBody (schemaStage sys w) w) false

/-- `connect_to_db` (lines 78-87). -/
def connect_to_db (sys : Sys) (w : World) (db_file : String) : Sys :=
  match get_db_conn sys.conns w.connect db_file with
  | (conns1, some _) =>
    let app2 : AppState :=
      { sys.app with db_name := db_file, is_connected := true }
    let sys2 : Sys := { app := app2, conns := conns1 }
    show_all_tables
      (appendSystem sys2 ("Successfully connected to " ++ db_file ++ ".")) w
  | (conns1, none) =>
      appendSystem { sys with conns := conns1 }
        ("Failed to connect to database: " ++ db_file)

/-- Python `str.strip()`: drop leading and trailing whitespace. -/
def pyStrip (s : String) : String :=
  String.mk
    (((s.toList.dropWhile Char.isWhitespace).reverse.dropWhile
        Char.isWhitespace).reverse)

/-- Python `str.endswith(t)`. -/
def pyEndsWith (s t : String) : Bool :=
  t.toList.isSuffixOf s.toList

/-- Python `str.startswith(t)`. -/
def pyStartsWith (s t : String) : Bool :=
  t.toList.isPrefixOf s.toList

/-- Python `str.lower()` (ASCII case folding). -/
def pyLower (s : String) : String :=
  String.mk (s.toList.map Char.toLower)

/-- Python `s[n:]`. -/
def pyDrop (s : String) (n : Nat) : String :=
  String.mk (s.toList.drop n)

/-- Lines 69-70: append the `".duckdb"` extension unless already present. -/
def resolve_db_file (db_file : String) : String :=
  if pyEndsWith db_file ".duckdb" then db_file else db_file ++ ".duckdb"

/-- The connect-command literal `"connect to "`. -/
def connectCmd : String := "connect to "

/-- `handle_submit` (lines 57-76): reject blank or in-flight submissions,
append the user entry, then either run the connect command (prefix matched
on the lowercased text, identifier cut from the original text) or prompt
to connect, or run the Gemini turn. -/
def handle_submit (sys : Sys) (w : World) (question : String) : Sys :=
  if pyStrip question = "" ∨ sys.app.processing = true then sys
  else if (appendChat sys "user" question).app.is_connected = false then
    if pyStartsWith (pyLower question) connectCmd then
      connect_to_db (appendChat sys "user" question) w
        (resolve_db_file (pyStrip (pyDrop question connectCmd.length)))
    else
      appendSystem (appendChat sys "user" question)
        "Please connect to a database first. Use 'connect to <database_name>'."
  else
    process_query_with_gemini (appendChat sys "user" question) w

/-- A connected, idle session used to instantiate the theorems. -/
def sysEx : Sys :=
  { app := { chat_history := []
             db_name := "sales.duckdb"
             is_connected := true
             processing := false
             api_key := "k"
             api_key_set := true }
    conns := [("sales.duckdb", 7)] }

/-- A disconnected session used to instantiate the theorems. -/
def sysDisc : Sys :=
  { app := { chat_history := []
             db_name := ""
             is_connected := false
             processing := false
             api_key := "k"
             api_key_set := true }
    conns := [] }

/-- The model text of the concrete scenario: a lone JSON action object. -/
def content201 : String := "\x7b\"action\": \"sql\", \"query\": \"SELECT 1;\"\x7d"

/-- A Gemini response body whose first candidate's text is `content201`. -/
def body201 : String :=
  "\x7b\"candidates\": [\x7b\"content\": \x7b\"parts\": [\x7b\"text\": \"\x7b\\\"action\\\": \\\"sql\\\", \\\"query\\\": \\\"SELECT 1;\\\"\x7d\"\x7d]\x7d\x7d]\x7d"

/-- The decoded form of `body201`. -/
def bodyJson201 : Json :=
  Json.obj [("candidates", Json.arr [Json.obj [("content",
    Json.obj [("parts", Json.arr [Json.obj [("text", Json.str content201)]])])]])]

/-- A benign world: connections succeed, the database is empty, queries
return no rows, and the HTTP call returns status 200 with `body201`. -/
def wEx : World :=
  { connect := fun _ => some 1
    http := HttpResult.response { status_code := 200, text := body201 }
    schemaTables := Except.ok []
    tableInfo := fun _ => Except.ok ""
    listTables := Except.ok []
    execResult := Except.ok none
    fileExists := fun _ => false
    createResult := Except.ok () }

/-- `wEx` with an HTTP 201 response. -/
def w201 : World :=
  { wEx with http := HttpResult.response { status_code := 201, text := body201 } }

/-- `wEx` with an HTTP 500 response whose body is `"boom"`. -/
def wErr : World :=
  { wEx with http := HttpResult.response { status_code := 500, text := "boom" } }

/-! ## Helper lemmas -/

theorem lookupConn_append_self (conns : Registry) (k : String) (v : Nat)
    (h : lookupConn conns k = none) :
    lookupConn (conns ++ [(k, v)]) k = some v := by
  induction conns with
  | nil => simp [lookupConn]
  | cons p ps ih =>
    cases hp : (p.1 == k) with
    | true =>
      exfalso
      have hpos : List.find? (fun q : String × Nat => q.1 == k) (p :: ps)
          = some p :=
        List.find?_cons_of_pos ps hp
      unfold lookupConn at h
      simp [hpos] at h
    | false =>
      have hneg : ¬ ((fun q : String × Nat => q.1 == k) p = true) := by
        simp only [hp]
        exact Bool.false_ne_true
      have hfind : List.find? (fun q : String × Nat => q.1 == k)
          (p :: (ps ++ [(k, v)]))
          = List.find? (fun q : String × Nat => q.1 == k) (ps ++ [(k, v)]) :=
        List.find?_cons_of_neg _ hneg
      have hfind2 : List.find? (fun q : String × Nat => q.1 == k) (p :: ps)
          = List.find? (fun q : String × Nat => q.1 == k) ps :=
        List.find?_cons_of_neg _ hneg
      unfold lookupConn at h ⊢
      rw [hfind2] at h
      rw [List.cons_append, hfind]
      exact ih h

theorem append_ne_empty_left (s t : String) (h : s.length ≠ 0) :
    s ++ t ≠ "" := by
  intro heq
  have hl := congrArg String.length heq
  rw [String.length_append] at hl
  simp only [String.length_empty] at hl
  omega

/-! ## Claim theorems -/

/-- C4: on every terminal path of `process_query_with_gemini` — dispatch
success, any stage error, or a raised exception — the `finally` block
leaves `processing = False`; the session is never left busy. -/
theorem process_query_clears_processing (sys : Sys) (w : World) :
    (process_query_with_gemini sys w).app.processing = false := rfl

/-- C9: a submission that is blank after stripping, or arriving while
`processing` is set, returns before appending any chat entry or touching
any state field: the whole state is returned unchanged. -/
theorem handle_submit_rejected_noop (sys : Sys) (w : World) (question : String)
    (h : pyStrip question = "" ∨ sys.app.processing = true) :
    handle_submit sys w question = sys := by
  unfold handle_submit
  rw [if_pos h]

theorem handle_submit_rejected_noop_witness :
    handle_submit sysEx wEx "   " = sysEx
    ∧ handle_submit { sysEx with app := { sysEx.app with processing := true } }
        wEx "show tables"
      = { sysEx with app := { sysEx.app with processing := true } } :=
  ⟨handle_submit_rejected_noop sysEx wEx "   " (Or.inl (by decide)),
   handle_submit_rejected_noop _ wEx "show tables" (Or.inr rfl)⟩

/-- C5: a successful `get_db_conn` caches its handle, so a second call for
the same identifier returns the identical handle and the unchanged cache,
independently of the `duckdb.connect` oracle (no second open); a failed
open caches nothing, and a later call for the same identifier retries the
open. -/
theorem get_db_conn_cache (conns c1 : Registry)
    (connect connect2 : String → Option Nat) (db_name : String) (h : Nat) :
    (get_db_conn conns connect db_name = (c1, some h) →
      get_db_conn c1 connect2 db_name = (c1, some h))
    ∧ (db_name ≠ "" → lookupConn conns db_name = none →
        connect db_name = none →
        get_db_conn conns connect db_name = (conns, none)
        ∧ (connect2 db_name = some h →
            get_db_conn conns connect2 db_name
              = (conns ++ [(db_name, h)], some h))) := by
  constructor
  · intro hfirst
    unfold get_db_conn at hfirst ⊢
    by_cases hname : db_name = ""
    · rw [if_pos hname] at hfirst
      exact absurd (congrArg Prod.snd hfirst) (by simp)
    · rw [if_neg hname] at hfirst ⊢
      cases hl : lookupConn conns db_name with
      | some h0 =>
        rw [hl] at hfirst
        have h1 : conns = c1 := congrArg Prod.fst hfirst
        have h2 : h0 = h := by
          have := congrArg Prod.snd hfirst
          simpa using this
        subst h1; subst h2
        rw [hl]
      | none =>
        rw [hl] at hfirst
        cases hc : connect db_name with
        | some h0 =>
          rw [hc] at hfirst
          have h1 : conns ++ [(db_name, h0)] = c1 := congrArg Prod.fst hfirst
          have h2 : h0 = h := by
            have := congrArg Prod.snd hfirst
            simpa using this
          subst h2; subst h1
          rw [lookupConn_append_self conns db_name h0 hl]
        | none =>
          rw [hc] at hfirst
          exact absurd (congrArg Prod.snd hfirst) (by simp)
  · intro hname hl hc
    refine ⟨?_, fun hc2 => ?_⟩
    · unfold get_db_conn
      rw [if_neg hname, hl, hc]
    · unfold get_db_conn
      rw [if_neg hname, hl, hc2]

theorem get_db_conn_cache_witness :
    get_db_conn [("a.duckdb", 5)] (fun _ => some 9) "a.duckdb"
      = ([("a.duckdb", 5)], some 5)
    ∧ get_db_conn [] (fun _ => none) "b.duckdb" = ([], none) :=
  ⟨(get_db_conn_cache [] [("a.duckdb", 5)] (fun _ => some 5) (fun _ => some 9)
      "a.duckdb" 5).1 rfl,
   ((get_db_conn_cache [] [] (fun _ => none) (fun _ => some 3) "b.duckdb" 3).2
      (by decide) rfl rfl).1⟩

/-- C6: the resolved identifier of a connect-command gains the `".duckdb"`
extension exactly once when missing, and is left unchanged when already
present (never doubled). -/
theorem resolve_db_file_ext (x : String) :
    (pyEndsWith x ".duckdb" = false → resolve_db_file x = x ++ ".duckdb")
    ∧ (pyEndsWith x ".duckdb" = true → resolve_db_file x = x) := by
  unfold resolve_db_file
  constructor <;> intro h <;> simp [h]

theorem resolve_db_file_ext_witness :
    resolve_db_file "sales" = "sales" ++ ".duckdb"
    ∧ resolve_db_file "crm.duckdb" = "crm.duckdb" :=
  ⟨(resolve_db_file_ext "sales").1 (by decide),
   (resolve_db_file_ext "crm.duckdb").2 (by decide)⟩

/-- C8: the schema introspector always returns, and never the empty
string: every engine failure is caught into a descriptive error string,
and a connected empty database yields the sentinel text. -/
theorem get_db_schema_nonempty (conns : Registry) (w : World)
    (db_name : String) :
    (get_db_schema conns w db_name).2 ≠ ""
    ∧ ((get_db_conn conns w.connect db_name).2.isSome = true →
        w.schemaTables = Except.ok [] →
        (get_db_schema conns w db_name).2 = "No tables in the database.") := by
  unfold get_db_schema
  cases hg : get_db_conn conns w.connect db_name with
  | mk c1 conn =>
    cases conn with
    | none =>
      dsimp only
      constructor
      · decide
      · intro hsome
        simp at hsome
    | some hh =>
      dsimp only
      constructor
      · cases ht : w.schemaTables with
        | error e =>
          dsimp only
          exact append_ne_empty_left "Error getting schema: " e (by decide)
        | ok tables =>
          dsimp only
          cases hb : buildSchemaText tables w.tableInfo "" with
          | error e =>
            dsimp only
            exact append_ne_empty_left "Error getting schema: " e (by decide)
          | ok schema =>
            dsimp only
            by_cases hs : schema = ""
            · rw [if_pos hs]
              decide
            · rw [if_neg hs]
              exact hs
      · intro _ ht
        rw [ht]
        rfl

theorem get_db_schema_nonempty_witness :
    (get_db_schema [("sales.duckdb", 7)] wEx "sales.duckdb").2
      = "No tables in the database." :=
  (get_db_schema_nonempty [("sales.duckdb", 7)] wEx "sales.duckdb").2 rfl rfl

/-- C2 counterexample: a parsed object whose `action` is `"sql"` but which
lacks a `query` field is dispatched to the SQL branch with a `None` query
instead of failing as an unknown action; likewise for `"create_table"`
without `file_path`/`table_name`. -/
theorem dispatch_missing_fields_dispatches :
    dispatch_action (Json.obj [("action", Json.str "sql")]) = ModelAction.sql none
    ∧ dispatch_action (Json.obj [("action", Json.str "sql")]) ≠ ModelAction.unknown
    ∧ dispatch_action (Json.obj [("action", Json.str "create_table")])
        = ModelAction.create_table none none :=
  ⟨rfl, fun h => ModelAction.noConfusion h, rfl⟩

/-- C2 (amended): an `action` value other than `"sql"`/`"create_table"`,
or a missing `action` field, yields the unknown-action outcome; but
`"sql"` dispatches with whatever `query` value the object holds (`None`
when absent), and `"create_table"` dispatches with its `file_path` and
`table_name` values (`None` when absent), with no field validation. -/
theorem dispatch_action_cases (j : Json) :
    (∀ a, j.get "action" = some a → a ≠ Json.str "sql" →
      a ≠ Json.str "create_table" → dispatch_action j = ModelAction.unknown)
    ∧ (j.get "action" = none → dispatch_action j = ModelAction.unknown)
    ∧ (j.get "action" = some (Json.str "sql") →
        dispatch_action j = ModelAction.sql (j.get "query"))
    ∧ (j.get "action" = some (Json.str "create_table") →
        dispatch_action j = ModelAction.create_table (j.get "file_path")
          (j.get "table_name")) := by
  refine ⟨?_, ?_, ?_, ?_⟩
  · intro a ha hs hc
    unfold dispatch_action
    rw [ha]
    cases a with
    | str s =>
      have hs' : s ≠ "sql" := fun h => hs (by rw [h])
      have hc' : s ≠ "create_table" := fun h => hc (by rw [h])
      dsimp only
      rw [if_neg hs', if_neg hc']
    | null => rfl
    | bool b => rfl
    | num l => rfl
    | arr xs => rfl
    | obj fs => rfl
  · intro ha
    unfold dispatch_action
    rw [ha]
  · intro ha
    unfold dispatch_action
    rw [ha]
    dsimp only
    rw [if_pos rfl]
  · intro ha
    unfold dispatch_action
    rw [ha]
    dsimp only
    rw [if_neg (by decide : ¬ ("create_table" : String) = "sql")]
    rw [if_pos rfl]

theorem dispatch_action_cases_witness :
    dispatch_action (Json.obj [("action", Json.str "drop")]) = ModelAction.unknown
    ∧ dispatch_action (Json.obj [("action", Json.str "sql"),
        ("query", Json.str "SELECT 1;")])
      = ModelAction.sql (some (Json.str "SELECT 1;"))
    ∧ dispatch_action (Json.obj [("action", Json.str "create_table"),
        ("file_path", Json.str "members.csv"), ("table_name", Json.str "members")])
      = ModelAction.create_table (some (Json.str "members.csv"))
          (some (Json.str "members")) :=
  ⟨(dispatch_action_cases _).1 (Json.str "drop") rfl
      (fun h => by injection h with h2; exact absurd h2 (by decide))
      (fun h => by injection h with h2; exact absurd h2 (by decide)),
   (dispatch_action_cases _).2.2.1 rfl,
   (dispatch_action_cases _).2.2.2 rfl⟩

/-- `str.find` misses a character that does not occur. -/
theorem pyFind_eq_none (c : Char) (s : List Char) (h : c ∉ s) :
    pyFind c s = none := by
  induction s with
  | nil => rfl
  | cons a as ih =>
    simp only [List.mem_cons, not_or] at h
    have hne : (a == c) = false := beq_eq_false_iff_ne.mpr (fun he => h.1 he.symm)
    have hstep : pyFind c (a :: as) = (pyFind c as).map (· + 1) := by
      simp [pyFind, hne]
    rw [hstep, ih h.2]
    rfl

/-- The extraction heuristic returns `none` when the text has no left
brace or no right brace. -/
theorem extractJsonSlice_eq_none (content : String)
    (h : lbrace ∉ content.toList ∨ rbrace ∉ content.toList) :
    extractJsonSlice content = none := by
  simp only [extractJsonSlice]
  rcases h with h | h
  · rw [pyFind_eq_none _ _ h]
  · have hr : pyRfind rbrace content.toList = none := by
      unfold pyRfind
      rw [pyFind_eq_none _ _ (by simpa using h)]
    rw [hr]
    cases pyFind lbrace content.toList <;> rfl

/-- C3: when the model text has no brace pair, or the located span is not
valid JSON, the turn surfaces exactly one system error message (the
caught `MalformedAction`) and ends normally. -/
theorem malformed_extraction_single_error (sys : Sys) (w : World)
    (content : String) :
    ((lbrace ∉ content.toList ∨ rbrace ∉ content.toList) →
      handleContent sys w content
        = appendSystem sys
            ("An error occurred: " ++ "No JSON object found in the response"))
    ∧ (∀ s, extractJsonSlice content = some s → jsonLoads s = none →
        handleContent sys w content
          = appendSystem sys ("An error occurred: " ++ jsonDecodeErrorMsg)) := by
  constructor
  · intro h
    unfold handleContent extract_result_json
    rw [extractJsonSlice_eq_none content h]
  · intro s hs hl
    unfold handleContent extract_result_json
    rw [hs]
    dsimp only
    rw [hl]

theorem malformed_extraction_single_error_witness :
    handleContent sysEx wEx "The answer is 42."
      = appendSystem sysEx
          ("An error occurred: " ++ "No JSON object found in the response")
    ∧ handleContent sysEx wEx "\x7b not json \x7d"
      = appendSystem sysEx ("An error occurred: " ++ jsonDecodeErrorMsg) :=
  ⟨(malformed_extraction_single_error sysEx wEx "The answer is 42.").1
      (Or.inl (by decide)),
   (malformed_extraction_single_error sysEx wEx "\x7b not json \x7d").2
      "\x7b not json \x7d" rfl rfl⟩

/-- C10: the connect-command prefix is matched on the lowercased text,
but the identifier handed to connection resolution is cut from the
original submission (the 11 characters of `"connect to "` dropped, then
stripped), preserving the letter case the user typed. -/
theorem connect_cmd_verbatim (sys : Sys) (w : World) (question : String)
    (hq : ¬ pyStrip question = "") (hp : sys.app.processing = false)
    (hc : sys.app.is_connected = false)
    (hs : pyStartsWith (pyLower question) "connect to " = true) :
    handle_submit sys w question
      = connect_to_db (appendChat sys "user" question) w
          (resolve_db_file (pyStrip (pyDrop question 11))) := by
  unfold handle_submit
  rw [if_neg (not_or.mpr ⟨hq, by rw [hp]; exact Bool.false_ne_true⟩)]
  rw [if_pos (show (appendChat sys "user" question).app.is_connected = false from hc)]
  rw [if_pos (show pyStartsWith (pyLower question) connectCmd = true from hs)]
  have h11 : connectCmd.length = 11 := by decide
  rw [h11]

theorem connect_cmd_verbatim_witness :
    handle_submit sysDisc wEx "Connect to MyDB"
      = connect_to_db (appendChat sysDisc "user" "Connect to MyDB") wEx
          "MyDB.duckdb" :=
  connect_cmd_verbatim sysDisc wEx "Connect to MyDB" (by decide) rfl rfl
    (by decide)

/-- C7 (amended): any response whose status is not exactly 200 is routed
to the API-error branch, appending one system message carrying the
response body, with no extraction; a status-200 response proceeds by
decoding the body and extracting the first candidate's text field, which
then drives the extraction/dispatch stage. -/
theorem model_client_status (sys : Sys) (w : World) (r : HttpResponse)
    (hw : w.http = HttpResult.response r) :
    (r.status_code ≠ 200 →
      process_query_with_gemini sys w
        = setProcessing
            (appendSystem (schemaStage sys w) ("API Error: " ++ r.text)) false)
    ∧ (∀ body content, r.status_code = 200 → jsonLoads r.text = some body →
        candidateText body = some content →
        process_query_with_gemini sys w
          = setProcessing (handleContent (schemaStage sys w) w content) false) := by
  constructor
  · intro hst
    unfold process_query_with_gemini turnBody
    rw [hw]
    dsimp only
    rw [if_pos hst]
  · intro body content hst hb hc
    unfold process_query_with_gemini turnBody
    rw [hw]
    dsimp only
    rw [if_neg (fun hne => hne hst), hb]
    dsimp only
    rw [hc]

theorem model_client_status_witness :
    process_query_with_gemini sysEx wErr
      = setProcessing
          (appendSystem (schemaStage sysEx wErr) ("API Error: " ++ "boom")) false
    ∧ process_query_with_gemini sysEx wEx
      = setProcessing (handleContent (schemaStage sysEx wEx) wEx content201)
          false :=
  ⟨(model_client_status sysEx wErr { status_code := 500, text := "boom" } rfl).1
      (by decide),
   (model_client_status sysEx wEx { status_code := 200, text := body201 } rfl).2
      bodyJson201 content201 rfl rfl rfl⟩

/-- C7 counterexample: status 201 is a 2xx success, yet the turn appends
the API-error message and never reaches extraction/dispatch, contradicting
"for every 2xx response it proceeds by extracting the first candidate's
text field". -/
theorem status_201_not_extracted :
    (200 ≤ 201 ∧ 201 < 300)
    ∧ process_query_with_gemini sysEx w201
        = setProcessing
            (appendSystem (schemaStage sysEx w201) ("API Error: " ++ body201))
            false
    ∧ process_query_with_gemini sysEx w201
        ≠ setProcessing (handleContent (schemaStage sysEx w201) w201 content201)
            false :=
  ⟨by decide, rfl, by decide⟩

/-- `str.find` over an append whose left part misses the character. -/
theorem pyFind_append_of_none (c : Char) (s t : List Char)
    (h : pyFind c s = none) :
    pyFind c (s ++ t) = (pyFind c t).map (· + s.length) := by
  induction s with
  | nil =>
    cases hp : pyFind c t with
    | none => simp [hp]
    | some v => simp [hp]
  | cons a as ih =>
    have hcase : (a == c) = false := by
      by_contra hx
      have hx' : (a == c) = true := by simpa using hx
      simp [pyFind, hx'] at h
    have htail : pyFind c as = none := by
      cases hp : pyFind c as with
      | none => rfl
      | some v =>
        exfalso
        simp [pyFind, hcase, hp] at h
    have hstep : pyFind c ((a :: as) ++ t) = (pyFind c (as ++ t)).map (· + 1) := by
      simp [pyFind, hcase]
    rw [hstep, ih htail]
    cases pyFind c t <;> rfl

/-- C1 (amended): when the model text is a unique JSON object surrounded
by prose that contains no `'{'` before the object and no `'}'` after it,
the first-`'{'`-to-last-`'}'` slice is exactly the embedded object, so
parsing the extracted slice agrees with parsing the object in isolation. -/
theorem extract_embedded_object (pre obj post : List Char)
    (h1 : lbrace ∉ pre) (h2 : rbrace ∉ post)
    (h3 : obj.head? = some lbrace) (h4 : obj.getLast? = some rbrace) :
    extractJsonSlice (String.mk (pre ++ obj ++ post)) = some (String.mk obj)
    ∧ (extractJsonSlice (String.mk (pre ++ obj ++ post))).bind jsonLoads
        = jsonLoads (String.mk obj) := by
  have hobj1 : 1 ≤ obj.length := by
    cases obj with
    | nil => simp at h3
    | cons a t => simp
  have hf : pyFind lbrace (pre ++ obj ++ post) = some pre.length := by
    rw [List.append_assoc]
    rw [pyFind_append_of_none _ _ _ (pyFind_eq_none _ _ h1)]
    cases obj with
    | nil => simp at h3
    | cons a t =>
      have ha : a = lbrace := by simpa using h3
      subst ha
      have h0 : pyFind lbrace ((lbrace :: t) ++ post) = some 0 := by
        simp [pyFind]
      rw [h0]
      simp
  obtain ⟨rt, hrt⟩ : ∃ rt, obj.reverse = rbrace :: rt := by
    cases hrv : obj.reverse with
    | nil =>
      rw [← List.head?_reverse obj, hrv] at h4
      simp at h4
    | cons a t =>
      rw [← List.head?_reverse obj, hrv] at h4
      simp at h4
      exact ⟨t, by rw [h4]⟩
  have hr : pyRfind rbrace (pre ++ obj ++ post)
      = some (pre.length + obj.length - 1) := by
    unfold pyRfind
    have hrev : (pre ++ obj ++ post).reverse
        = post.reverse ++ (obj.reverse ++ pre.reverse) := by
      simp [List.reverse_append]
    rw [hrev,
      pyFind_append_of_none _ _ _ (pyFind_eq_none _ _ (by simpa using h2))]
    rw [hrt, List.cons_append]
    have h0 : pyFind rbrace (rbrace :: (rt ++ pre.reverse)) = some 0 := by
      simp [pyFind]
    rw [h0]
    show some ((pre ++ obj ++ post).length - 1 - (0 + post.reverse.length))
        = some (pre.length + obj.length - 1)
    congr 1
    simp only [List.length_append, List.length_reverse]
    omega
  have hmain : extractJsonSlice (String.mk (pre ++ obj ++ post))
      = some (String.mk obj) := by
    simp only [extractJsonSlice]
    have htl : (String.mk (pre ++ obj ++ post)).toList = pre ++ obj ++ post := rfl
    rw [htl, hf, hr]
    show some (String.mk (List.drop pre.length
        (List.take (pre.length + obj.length - 1 + 1) (pre ++ obj ++ post))))
      = some (String.mk obj)
    have hj : pre.length + obj.length - 1 + 1 = pre.length + obj.length := by
      omega
    rw [hj]
    have htake : (pre ++ obj ++ post).take (pre.length + obj.length)
        = pre ++ obj :=
      List.take_left' (by simp)
    rw [htake, List.drop_left]
  refine ⟨hmain, ?_⟩
  rw [hmain]
  rfl

theorem extract_embedded_object_witness :
    extractJsonSlice (String.mk ("Sure! ".toList
        ++ "\x7b\"action\":\"sql\",\"query\":\"SELECT 1;\"\x7d".toList
        ++ " Done.".toList))
      = some (String.mk "\x7b\"action\":\"sql\",\"query\":\"SELECT 1;\"\x7d".toList) :=
  (extract_embedded_object _ _ _ (by decide) (by decide) (by decide)
    (by decide)).1

/-- C1 counterexample: the text `note \x7b- \x7b"action": "sql"\x7d`
contains exactly one JSON object, surrounded by prose, yet the stray
`'{'` in the prose makes the first-to-last-brace slice unparseable, so
extraction does not return the parse of the embedded object. -/
theorem extract_misled_by_prose_brace :
    jsonLoads "\x7b\"action\": \"sql\"\x7d"
      = some (Json.obj [("action", Json.str "sql")])
    ∧ extractJsonSlice "note \x7b- \x7b\"action\": \"sql\"\x7d"
      = some "\x7b- \x7b\"action\": \"sql\"\x7d"
    ∧ (extractJsonSlice "note \x7b- \x7b\"action\": \"sql\"\x7d").bind jsonLoads
      = none :=
  ⟨rfl, rfl, rfl⟩
